import Mathlib

/-!
Verification development for the CodeSonar hub client of the
vscode-codesonar extension.

The definitions below are shallow embeddings of the TypeScript sources:
  * `src/src/cs_hub_client.ts` (CSHubClient, capability info, search literal
    escaping, sign-in),
  * `src/src/csonar_ex.ts` (record-id parsing),
  * `src/unnamed/part_004` (`http_client.ts`: encodeURIQuery, HTTPCookie,
    HTTPClientConnection.request and its cookie jar),
  * `src/unnamed/part_008` (`sarif_download_command.ts`: downloadSarifResults
    rejection path),
  * `src/unnamed/part_005` (`errors_ex.ts`: error message codes).

JavaScript asynchronous functions are modelled as pure functions: the outcome
of each external I/O step (the HTTP response or socket error) is passed in as
an explicit argument, and the function computes what the Promise does with it
(resolve with a value, or reject with an error).  Platform functions that the
code calls (`JSON.parse`, `new Date(...)`, `encodeURIComponent`, relative URL
resolution) are passed in as function parameters of the embedding.
-/

/-! ## Error model

The TypeScript code distinguishes errors by their class and by duck-typed
fields (`code` on `NodeJS.ErrnoException`, numeric `code` on
`HTTPStatusError`).  `errno` models a NodeJS error carrying a string `code`
property; `statusError` models `HTTPStatusError` (part_004 lines 89-107);
`hubError` models `CSHubRequestError` (cs_hub_client.ts lines 275-290), whose
`message` is `hubMessage || statusMessage`; `cancelled` models
`OperationCancelledError`.  `OperationCancelledError` itself is not under
`src/`; it is Modelled from the spec: a "distinguished cancellation error
distinct from I/O errors" (spec section 5, Cancellation). -/
inductive JSError where
  | jsError (message : String)
  | statusError (message : String) (code : Nat)
  | hubError (statusMessage : String) (code : Nat) (hubMessage : String)
  | errno (code : String) (message : String)
  | cancelled (message : String)
  deriving DecidableEq, Repr

/-- The `.message` property of each modelled error object.
`CSHubRequestError`'s constructor sets `message = hubMessage || statusMessage`
(cs_hub_client.ts line 280); an undefined `hubMessage` is stored as `""`. -/
def JSError.message : JSError → String
  | .jsError m => m
  | .statusError m _ => m
  | .hubError sm _ hm => if hm ≠ "" then hm else sm
  | .errno _ m => m
  | .cancelled m => m

/-- Embeds `errorToMessageCode` of `errors_ex.ts` (part_005): reads the duck-typed
`code` property expecting a string.  `HTTPStatusError.code` is a number, so
every comparison of it against the string code constants
(`'EPROTO'`, `'ECONNREFUSED'`, `'ECONNRESET'`) is false; returning `none`
for it is observationally equivalent for all uses in the sources. -/
def errorToMessageCode : JSError → Option String
  | .errno c _ => some c
  | _ => none

/-- The test `e instanceof HTTPStatusError`: `CSHubRequestError extends HTTPStatusError`,
so both constructors satisfy the test. -/
def JSError.isHTTPStatusError : JSError → Bool
  | .statusError _ _ => true
  | .hubError _ _ _ => true
  | _ => false

/-- Numeric HTTP status `code` carried by an `HTTPStatusError`. -/
def JSError.statusCode : JSError → Option Nat
  | .statusError _ c => some c
  | .hubError _ c _ => some c
  | _ => none

/-- The test `e instanceof OperationCancelledError` (cancellation classification). -/
def JSError.isCancellation : JSError → Bool
  | .cancelled _ => true
  | _ => false

/-- JavaScript truthiness of an optional string (`undefined` and `""` are
falsy). -/
def jsTruthyOpt (o : Option String) : Bool :=
  match o with
  | some s => s ≠ ""
  | none => false

/-! ## `encodeURIQuery` (http_client.ts, part_004 lines 109-135)

The source iterates the own properties of a plain object.  We model the
object as an association list in property order.  The source's final branch
(`JSON.stringify` for object-valued entries) is not modelled: no value of
object type is ever put in a query by the client code under verification. -/

/-- A JavaScript value stored in a query object. -/
inductive URIQueryValue where
  | vstr (s : String)
  | vbool (b : Bool)
  | vnum (n : Int)
  | vundefined
  | vnull
  deriving DecidableEq, Repr

/-- The string each value kind is rendered to, mirroring the if-chain of
`encodeURIQuery` (part_004 lines 115-130). -/
def uriQueryValueString : URIQueryValue → String
  | .vundefined => ""
  | .vnull => ""
  | .vstr s => s
  | .vbool b => if b then "1" else "0"
  | .vnum n => toString n

/-- Embeds `encodeURIQuery`: joins `key=value` parts with `&`.  No percent-encoding
is applied to keys or values. -/
def encodeURIQuery (queryObject : List (String × URIQueryValue)) : String :=
  String.intercalate "&"
    (queryObject.map (fun kv => kv.1 ++ "=" ++ uriQueryValueString kv.2))

/-! ## `encodeCSSearchStringLiteral` (cs_hub_client.ts lines 205-234) -/

/-- The double-quote character. -/
def csQUOTE : Char := Char.ofNat 34

/-- The single-quote (apostrophe) character. -/
def csAPOS : Char := Char.ofNat 39

/-- The backslash character. -/
def csESC : Char := Char.ofNat 92

/-- The per-character transformation of the loop body
(cs_hub_client.ts lines 218-230). -/
def csEscapeChar (ch : Char) : List Char :=
  if ch = csESC then [csESC, csESC]
  else if ch = csQUOTE then [csESC, csQUOTE]
  else if ch = csAPOS then [csESC, csAPOS]
  else [ch]

/-- Embeds `encodeCSSearchStringLiteral`: pushes a quote, each (possibly escaped)
character, and a closing quote, then joins. -/
def encodeCSSearchStringLiteral (s : String) : String :=
  String.mk (csQUOTE :: ((s.data.map csEscapeChar).flatten ++ [csQUOTE]))

/-- Reference unescape, written from the spec's words: strip the outer double
quotes, then drop one level of backslash escaping.  Returns `none` on a
malformed literal (missing quotes or dangling escape). -/
def csUnescapeChars : List Char → Option (List Char)
  | [] => some []
  | c :: cs =>
    if c = csESC then
      match cs with
      | [] => none
      | d :: ds => (csUnescapeChars ds).map (fun r => d :: r)
    else
      (csUnescapeChars cs).map (fun r => c :: r)

/-- Reference decoder for quoted search string literals (from the spec's
words, to be compared with `encodeCSSearchStringLiteral`). -/
def decodeCSSearchStringLiteral (s : String) : Option String :=
  match s.data with
  | [] => none
  | c :: cs =>
    if c = csQUOTE ∧ cs.getLast? = some csQUOTE then
      (csUnescapeChars cs.dropLast).map String.mk
    else
      none

/-! ## Record-id parsing (csonar_ex.ts lines 190-216) -/

/-- A record id as it arrives from JSON: `string | number | bigint`.
JavaScript numbers are IEEE doubles; every integral value the threshold
comparison and `toString` are applied to here is below `1e21`, where integral
doubles compare and print exactly like integers, so `Int` is a faithful
carrier. -/
inductive CSHubRecordIdInput where
  | num (n : Int)
  | bigintVal (n : Int)
  | str (s : String)
  deriving DecidableEq, Repr

/-- Embeds `MAX_CSHUB_RECORD_ID_NUMBER = 2**53 - 1` (csonar_ex.ts line 191). -/
def MAX_CSHUB_RECORD_ID_NUMBER : Int := 2 ^ 53 - 1

/-- Embeds `recordId.toString()` for each input kind. -/
def recordIdToString : CSHubRecordIdInput → String
  | .num n => toString n
  | .bigintVal n => toString n
  | .str s => s

/-- Embeds `parseCSHubRecordId` (csonar_ex.ts lines 194-206): a `number` above the
safe-integer maximum throws; everything else is returned via `toString()`. -/
def parseCSHubRecordId (recordId : CSHubRecordIdInput) : Except JSError String :=
  match recordId with
  | .num n =>
    if n > MAX_CSHUB_RECORD_ID_NUMBER then
      Except.error (JSError.jsError
        ("CodeSonar hub ID value " ++ toString n ++
         " is too large to be accurately represented as a number type."))
    else
      Except.ok (recordIdToString (.num n))
  | x => Except.ok (recordIdToString x)

/-- Embeds `parseCSProjectId` (csonar_ex.ts lines 209-211). -/
def parseCSProjectId (projectId : CSHubRecordIdInput) : Except JSError String :=
  parseCSHubRecordId projectId

/-- Embeds `parseCSAnalysisId` (csonar_ex.ts lines 214-216). -/
def parseCSAnalysisId (analysisId : CSHubRecordIdInput) : Except JSError String :=
  parseCSHubRecordId analysisId

/-! ## Capability info (cs_hub_client.ts lines 131-150, 252-272, 817-897) -/

/-- Embeds `capabilities` member of the check_version response. -/
structure CSHubCapabilities where
  openapi : Option Bool
  deriving DecidableEq, Repr

/-- Response from `/command/check_version/$client/`
(cs_hub_client.ts lines 131-141).  `clientOK` is `boolean|null|undefined`. -/
structure CSHubVersionCompatibilityInfo where
  hubVersion : String
  hubVersionNumber : Int
  hubProtocol : Int
  clientOK : Option (Option Bool) := none
  message : Option String := none
  capabilities : Option CSHubCapabilities := none
  deriving DecidableEq, Repr

/-- Embeds `CSHubCapabilityInfo` (cs_hub_client.ts lines 144-150). -/
structure CSHubCapabilityInfo where
  hubVersionString : String
  hubVersionNumber : Int
  openAPI : Bool
  resultLimiting : Bool
  sarifSearch : Bool
  deriving DecidableEq, Repr

/-- Embeds `getHubCapabilityInfo` (cs_hub_client.ts lines 252-272).  The source
takes `CSHubVersionCompatibilityInfo|null|undefined`; both nullish cases
leave the all-false default, so they are merged into `none`. -/
def getHubCapabilityInfo (compatibilityInfo : Option CSHubVersionCompatibilityInfo) :
    CSHubCapabilityInfo :=
  match compatibilityInfo with
  | none =>
    { hubVersionString := ""
      hubVersionNumber := 0
      openAPI := false
      resultLimiting := false
      sarifSearch := false }
  | some ci =>
    { hubVersionString := ci.hubVersion
      hubVersionNumber := ci.hubVersionNumber
      openAPI := (ci.capabilities.bind (fun c => c.openapi)) = some true
      resultLimiting := ci.hubVersionNumber > 700
      sarifSearch := ci.hubVersionNumber > 700 }

/-- The memoization field `hubVersionCompatibilityInfo` of `CSHubClient`
(cs_hub_client.ts lines 298-300): `undefined` = not tried, `null` = tried
and got a 404, otherwise the fetched value. -/
inductive CompatCache where
  | notTried
  | triedAbsent
  | cached (ci : CSHubVersionCompatibilityInfo)
  deriving DecidableEq, Repr

/-- Embeds `CSHubClient.fetchVersionCompatibilityInfo` (cs_hub_client.ts lines
822-849), as a function of the outcome of the underlying `fetchJson` call:
an `HTTPStatusError` with code 404 is swallowed (the hub predates the
endpoint); any other error is rethrown. -/
def fetchVersionCompatibilityInfo
    (fetchResult : Except JSError CSHubVersionCompatibilityInfo) :
    Except JSError (Option CSHubVersionCompatibilityInfo) :=
  match fetchResult with
  | .ok ci => .ok (some ci)
  | .error e =>
    if e.isHTTPStatusError ∧ e.statusCode = some 404 then
      .ok none
    else
      .error e

/-- Embeds `CSHubClient.getVersionCompatibilityInfo` (cs_hub_client.ts lines
858-891): returns the cached value without fetching when the cache is
populated; on a first fetch, stores `null` for an absent endpoint and the
value otherwise.  `clientName`/`clientVersion` must be configured.
Returns the value handed to the caller together with the new cache state. -/
def getVersionCompatibilityInfo
    (clientName clientVersion : Option String)
    (cache : CompatCache)
    (fetchResult : Except JSError CSHubVersionCompatibilityInfo) :
    Except JSError (Option CSHubVersionCompatibilityInfo × CompatCache) :=
  match cache with
  | .triedAbsent => .ok (none, .triedAbsent)
  | .cached ci => .ok (some ci, .cached ci)
  | .notTried =>
    if clientName = none then
      .error (.jsError "Hub connection clientName option is required.")
    else if clientVersion = none then
      .error (.jsError "Hub connection clientVersion option is required.")
    else
      match fetchVersionCompatibilityInfo fetchResult with
      | .error e => .error e
      | .ok none => .ok (none, .triedAbsent)
      | .ok (some ci) => .ok (some ci, .cached ci)

/-! ## JavaScript string primitives

Structurally recursive embeddings of the JavaScript string methods the
sources call (`split` with a one-character separator, `trim`, `toLowerCase`,
`substring`-style truncation, `startsWith`), so that every definition in this
file evaluates by kernel reduction.  The inputs the client processes are
ASCII, where these agree with the JavaScript semantics. -/

/-- Embeds `String.prototype.split` with a one-character separator, on character
lists: `"" → [""]`, and each separator occurrence starts a new field. -/
def splitOnCharList (sep : Char) : List Char → List (List Char)
  | [] => [[]]
  | c :: cs =>
    match splitOnCharList sep cs with
    | [] => [[]]
    | h :: t => if c = sep then [] :: h :: t else (c :: h) :: t

/-- Embeds `String.prototype.split` with a one-character separator. -/
def jsSplitOnChar (sep : Char) (s : String) : List String :=
  (splitOnCharList sep s.data).map String.mk

/-- Embeds `String.prototype.trim`: drop whitespace from both ends. -/
def jsTrim (s : String) : String :=
  String.mk (((s.data.dropWhile Char.isWhitespace).reverse.dropWhile
    Char.isWhitespace).reverse)

/-- Embeds `String.prototype.toLowerCase` (ASCII). -/
def jsToLower (s : String) : String :=
  String.mk (s.data.map Char.toLower)

/-- Truncation to a maximum number of characters (`readTextStream`'s
`maxLength` argument, common_utils.ts lines 83-120). -/
def jsTake (s : String) (n : Nat) : String :=
  String.mk (s.data.take n)

/-- Embeds `String.prototype.startsWith`. -/
def jsStartsWith (s pre : String) : Bool :=
  pre.data.isPrefixOf s.data

/-! ## HTTP cookies (http_client.ts, part_004 lines 166-259, 339-389, 418-420,
496-503)

`new Date(attribValue)` and the clock are platform services: date parsing is
passed in as `parseDate` (returning milliseconds since the epoch, or `none`
for `Invalid Date`), and the current time as `nowMilliseconds`. -/

/-- JavaScript `parseInt(s)` in base 10: skip leading whitespace, optional
sign, then the longest prefix of digits; `NaN` (here `none`) if there is no
digit. -/
def parseIntJS (s : String) : Option Int :=
  let t := jsTrim s
  let signAndDigits : Int × List Char :=
    match t.data with
    | c :: cs =>
      if c = Char.ofNat 45 then (-1, cs)
      else if c = Char.ofNat 43 then (1, cs)
      else (1, t.data)
    | [] => (1, [])
  let leading := signAndDigits.2.takeWhile Char.isDigit
  if leading.isEmpty then
    none
  else
    some (signAndDigits.1 * (leading.foldl (fun a c => a * 10 + (Int.ofNat c.toNat - 48)) 0))

/-- Embeds `HTTPCookie` (part_004 lines 167-180), with dates as epoch milliseconds. -/
structure HTTPCookie where
  cookie : String
  key : String
  name : String
  value : Option String
  created : Option Int
  expires : Option Int
  maxAge : Option Int
  domain : Option String
  path : Option String
  httpOnly : Bool
  sameSite : Bool
  secure : Bool
  deriving DecidableEq, Repr

/-- State accumulated by the attribute loop of the `HTTPCookie` constructor
(part_004 lines 201-245). -/
structure HTTPCookieAttribs where
  expires : Option Int := none
  maxAge : Option Int := none
  domain : Option String := none
  path : Option String := none
  httpOnly : Bool := false
  sameSite : Bool := false
  secure : Bool := false

/-- One iteration of the attribute loop: trim, split on `=`, lowercase the
attribute name, and update the matching field.  The source stores `maxAge`
only when `attribValue` is truthy and `parseInt` does not give `NaN`, and
`expires` only when `attribValue` is truthy and the date is valid.
NOTE (faithful to the source): the branch tests the lowercased name against
`"maxage"`, although the Set-Cookie attribute is spelled `Max-Age`
(lowercased `"max-age"`), so a standard header never sets `maxAge`. -/
def httpCookieApplyAttrib (parseDate : String → Option Int)
    (st : HTTPCookieAttribs) (rawAttrib : String) : HTTPCookieAttribs :=
  let attrib := jsTrim rawAttrib
  let kv := jsSplitOnChar '=' attrib
  let attribName := kv.headD ""
  let attribNameLowerCase := jsToLower attribName
  let attribValue : Option String := kv[1]?
  if attribNameLowerCase = "httponly" then
    { st with httpOnly := true }
  else if attribNameLowerCase = "samesite" then
    { st with sameSite := true }
  else if attribNameLowerCase = "secure" then
    { st with secure := true }
  else if attribNameLowerCase = "maxage" then
    if jsTruthyOpt attribValue then
      match parseIntJS (attribValue.getD "") with
      | some n => { st with maxAge := some n }
      | none => st
    else
      st
  else if attribNameLowerCase = "path" then
    { st with path := attribValue }
  else if attribNameLowerCase = "domain" then
    { st with domain := attribValue }
  else if attribNameLowerCase = "expires" then
    if jsTruthyOpt attribValue then
      match parseDate (attribValue.getD "") with
      | some ms => { st with expires := some ms }
      | none => st
    else
      st
  else
    st

/-- The `HTTPCookie` constructor (part_004 lines 182-254): split the
Set-Cookie value on `;`, take `name=value` from the first part, fold the
attribute loop over the rest, and compute the storage key
(`name` alone, or `name;domain;path` when a domain or path is present). -/
def mkHTTPCookie (parseDate : String → Option Int)
    (setcookie : String) (created : Option Int) : HTTPCookie :=
  let attribs := jsSplitOnChar ';' setcookie
  let cookie := jsTrim (attribs.headD "")
  let kv := jsSplitOnChar '=' cookie
  let name := kv.headD ""
  let value : Option String := kv[1]?
  let st := (attribs.drop 1).foldl (httpCookieApplyAttrib parseDate) {}
  let key :=
    if jsTruthyOpt st.domain ∨ jsTruthyOpt st.path then
      String.intercalate ";" [name, st.domain.getD "", st.path.getD ""]
    else
      name
  { cookie := cookie
    key := key
    name := name
    value := value
    created := created
    expires := st.expires
    maxAge := st.maxAge
    domain := st.domain
    path := st.path
    httpOnly := st.httpOnly
    sameSite := st.sameSite
    secure := st.secure }

/-- The cookie jar `httpCookies : Record<string, HTTPCookie>`, as an
association list in property insertion order. -/
abbrev CookieJar : Type := List (String × HTTPCookie)

/-- JavaScript object assignment `record[key] = value`: replaces the value of
an existing key in place, otherwise appends the property. -/
def recordSet (jar : CookieJar) (k : String) (v : HTTPCookie) : CookieJar :=
  if (List.any jar (fun kv => kv.1 = k)) then
    List.map (fun kv => if kv.1 = k then (k, v) else kv) jar
  else
    jar ++ [(k, v)]

/-- Response processing of Set-Cookie headers
(part_004 lines 496-503): each header is parsed and stored under its key,
replacing any existing cookie with the same key. -/
def storeSetCookies (parseDate : String → Option Int)
    (jar : CookieJar) (setcookies : List String) (created : Option Int) :
    CookieJar :=
  setcookies.foldl
    (fun j sc =>
      let c := mkHTTPCookie parseDate sc created
      recordSet j c.key c)
    jar

/-- Embeds `HTTPClientConnection.evictExpiredCookies`, per-cookie test
(part_004 lines 349-373), translated FAITHFULLY: the source marks a cookie
`expired` when its deadline (`created + maxAge*1000`, or `expires`) is
GREATER than `nowMilliseconds`, i.e. still in the future.  `maxAge` is
checked first and only when both `maxAge` and `created` are present; the
`expires` branch is an `else if`. -/
def cookieMarkedExpired (nowMilliseconds : Int) (c : HTTPCookie) : Bool :=
  match c.maxAge, c.created with
  | some m, some cr => decide (cr + m * 1000 > nowMilliseconds)
  | _, _ =>
    match c.expires with
    | some ex => decide (ex > nowMilliseconds)
    | none => false

/-- Embeds `HTTPClientConnection.evictExpiredCookies` (part_004 lines 349-378):
collect the keys the per-cookie test marks and delete them. -/
def evictExpiredCookies (nowMilliseconds : Int) (jar : CookieJar) : CookieJar :=
  jar.filter (fun kv => ¬ cookieMarkedExpired nowMilliseconds kv.2)

/-- Embeds `HTTPClientConnection.getRequestCookies` (part_004 lines 381-389): every
cookie in the jar is rendered (`name=value`); path/domain are not checked. -/
def getRequestCookies (jar : CookieJar) : List String :=
  jar.map (fun kv => kv.2.cookie)

/-- The cookie-related prefix of `HTTPClientConnection.request`
(part_004 lines 418-420): evict, then collect the Cookie header values. -/
def requestCookiesAt (nowMilliseconds : Int) (jar : CookieJar) : List String :=
  getRequestCookies (evictExpiredCookies nowMilliseconds jar)

/-! ## `HTTPClientConnection.request` (part_004 lines 403-624)

The model keeps what the claims are about: the origin guard, the redirect
behaviour, and what the Promise settles to.  The network is a function from
the target URL to either a socket-level error or a response; `resolveUrl`
stands for `new URL(location, base)`. -/

/-- A resolved `URL` object, reduced to the fields the request logic reads. -/
structure UrlModel where
  origin : String
  href : String
  deriving DecidableEq, Repr

/-- A raw HTTP response delivered by the NodeJS back end. -/
structure RespModel where
  code : Nat
  message : String
  location : Option String := none
  bodyText : String := ""
  setCookies : List String := []
  deriving DecidableEq, Repr

/-- What `HTTPClientConnection.request` resolves with
(an `HTTPReceivedResponse`, part_004 lines 61-66, reduced). -/
structure ReceivedResponse where
  url : UrlModel
  code : Nat
  message : String
  bodyText : String
  deriving DecidableEq, Repr

/-- Settlement of the Promise returned by `request`. -/
inductive RequestResult where
  | resolved (resp : ReceivedResponse)
  | rejected (e : JSError)
  deriving DecidableEq, Repr

/-- Embeds `HTTPClientConnection.request` (part_004 lines 406-624) as a function of
the network environment `env`.  Notes on fidelity:
  * the origin guard (line 476) calls `reject` without returning, so the
    request is still written to the socket, but the Promise has already
    settled rejected: the model returns that first settlement;
  * a 301 with a truthy `location` header resolving to the same origin is
    re-requested recursively with the same options and data (lines 525-531);
    a cross-origin redirect target resolves the 301 response to the caller
    after logging (lines 520-523); a missing/empty `location` rejects
    (lines 517-518);
  * the recursion in the source is unbounded (a redirect cycle would never
    settle); `fuel` bounds it in the model, and every claim is stated with
    enough fuel. -/
def requestModelStep (resolveUrl : String → String → UrlModel)
    (baseUrlString : String)
    (env : UrlModel → Except JSError RespModel)
    (recur : UrlModel → RequestResult)
    (targetUrl : UrlModel) : RequestResult :=
  if targetUrl.origin ≠ baseUrlString then
    .rejected (.jsError
      ("Requested URL origin " ++ targetUrl.origin ++
       " does not match the HTTP connection to " ++ baseUrlString))
  else
    match env targetUrl with
    | .error e => .rejected e
    | .ok resp =>
      if resp.code = 301 then
        if resp.location.getD "" = "" then
          .rejected (.jsError
            ("Missing Redirect Location from server at " ++ targetUrl.href))
        else
          if (resolveUrl (resp.location.getD "") baseUrlString).origin ≠ baseUrlString then
            .resolved
              { url := targetUrl
                code := resp.code
                message := resp.message
                bodyText := resp.bodyText }
          else
            recur (resolveUrl (resp.location.getD "") baseUrlString)
      else
        .resolved
          { url := targetUrl
            code := resp.code
            message := resp.message
            bodyText := resp.bodyText }

/-- The recursive request function itself: each recursion step (one redirect
follow) applies `requestModelStep`. -/
def requestModel (resolveUrl : String → String → UrlModel)
    (baseUrlString : String)
    (env : UrlModel → Except JSError RespModel) :
    Nat → UrlModel → RequestResult
  | 0, _ => .rejected (.jsError "redirect recursion does not settle")
  | fuel + 1, targetUrl =>
    requestModelStep resolveUrl baseUrlString env
      (requestModel resolveUrl baseUrlString env fuel) targetUrl

/-! ## `CSHubClient.getHttpClientConnection` (cs_hub_client.ts lines 339-422) -/

/-- Embeds `CSHubAuthenticationMethod` (csonar_ex.ts lines 174-178). -/
inductive CSHubAuthenticationMethod where
  | anonymous
  | password
  | certificate
  deriving DecidableEq, Repr

/-- Embeds `normalizeProtocolString` (part_004 lines 138-144). -/
def normalizeProtocolString (protocol : String) : String :=
  let protocol2 := jsToLower protocol
  if protocol2.data.getLast? = some ':' then
    String.mk protocol2.data.dropLast
  else
    protocol2

/-- The `CSHubAddress` fields read by `getHttpClientConnection`
(`protocol` keeps the `URL.protocol` form, e.g. `"https:"`, or is absent). -/
structure CSHubAddressModel where
  protocol : Option String
  hostname : String
  port : Option Nat
  deriving DecidableEq, Repr

/-- The connection options read by `getHttpClientConnection`.  File contents
(`cafile`, `hubkey` material) are modelled by their presence; reading them is
assumed to succeed (a read failure would propagate and no claim concerns
it). -/
structure CSHubConnOptionsModel where
  auth : Option CSHubAuthenticationMethod := none
  cafile : Bool := false
  hubkey : Bool := false
  hubkeypasswd : Bool := false
  keyIsProtected : Bool := false
  timeout : Option Nat := none
  deriving DecidableEq, Repr

/-- The cached `HTTPClientConnection` (the subset of its state the claims
mention). -/
structure ConnModel where
  protocol : String
  hostname : String
  port : Option Nat
  hasCA : Bool
  hasClientCert : Bool
  deriving DecidableEq, Repr

/-- Outcome of the HTTPS `HEAD /` probe request issued during scheme
detection: either a settled response status, or a connection-level error. -/
inductive ProbeOutcome where
  | response (code : Nat)
  | connError (e : JSError)
  deriving DecidableEq, Repr

/-- Result of one `getHttpClientConnection` call: the connection handed to
the caller, the new cached state, and whether the HTTPS probe was issued. -/
structure GetConnResult where
  conn : ConnModel
  cachedConn : Option ConnModel
  probeIssued : Bool
  deriving DecidableEq, Repr

/-- Embeds `CSHubClient.getHttpClientConnection` (cs_hub_client.ts lines 340-422):
if a connection is cached, return it (no probe).  Otherwise start from the
address protocol; a configured `cafile` forces HTTPS, as does a client
certificate key under certificate (or unspecified) authentication.  Only when
the protocol is still unknown is the HTTPS `HEAD /` probe issued: a 301
response switches to HTTP, any other response keeps HTTPS, an `EPROTO` or
`ECONNREFUSED` connection error falls back to HTTP, and any other error is
rethrown to the caller.  The built connection is cached. -/
def getHttpClientConnection
    (hubAddress : CSHubAddressModel)
    (options : CSHubConnOptionsModel)
    (probe : ProbeOutcome)
    (httpConn : Option ConnModel) :
    Except JSError GetConnResult :=
  match httpConn with
  | some conn => .ok { conn := conn, cachedConn := some conn, probeIssued := false }
  | none =>
    let protocol0 : Option String := hubAddress.protocol
    let hasCA := options.cafile
    let useClientCert :=
      (options.auth = none ∨ options.auth = some .certificate) ∧ options.hubkey
    let protocol1 : Option String := if hasCA then some "https" else protocol0
    let protocol2 : Option String := if useClientCert then some "https" else protocol1
    let mkConn (p : String) : ConnModel :=
      { protocol := normalizeProtocolString p
        hostname := hubAddress.hostname
        port := hubAddress.port
        hasCA := hasCA
        hasClientCert := useClientCert }
    match protocol2 with
    | some p =>
      let conn := mkConn p
      .ok { conn := conn, cachedConn := some conn, probeIssued := false }
    | none =>
      match probe with
      | .response code =>
        let p := if code = 301 then "http" else "https"
        let conn := mkConn p
        .ok { conn := conn, cachedConn := some conn, probeIssued := true }
      | .connError e =>
        let ecode := (errorToMessageCode e).getD ""
        if ecode ≠ "EPROTO" ∧ ecode ≠ "ECONNREFUSED" then
          .error e
        else
          let conn := mkConn "http"
          .ok { conn := conn, cachedConn := some conn, probeIssued := true }

/-! ## `CSHubClient.post`, error extraction and `signIn`
(cs_hub_client.ts lines 424-469, 520-584, 600-763) -/

/-- Embeds `CSHubResponseFormat` (cs_hub_client.ts lines 62-66). -/
inductive CSHubResponseFormat where
  | html
  | text
  | json
  deriving DecidableEq, Repr

/-- The test `e instanceof CSHubRequestError`. -/
def JSError.isCSHubRequestError : JSError → Bool
  | .hubError _ _ _ => true
  | _ => false

/-- The result of `JSON.parse` on a hub response body, reduced to the two
fields the client reads (`error` of `CSHubJsonErrorResponse`, `bearer` of
`CSHubSessionInfo`).  `JSON.parse` itself is a platform function and is
passed into the embedding as a `String → Option JsonObj` parameter;
`none` models a thrown `SyntaxError`. -/
structure JsonObj where
  error : Option String := none
  bearer : Option String := none
  deriving DecidableEq, Repr

/-- Embeds `parseCSHubParamBoolean` (cs_hub_client.ts lines 237-249); the
`undefined` and `null` inputs are merged into `none`. -/
def parseCSHubParamBoolean (s : Option String) : Option Bool :=
  match s with
  | none => none
  | some v =>
    if v = "yes" ∨ v = "1" then some true
    else if v = "no" ∨ v = "0" then some false
    else none

/-- Embeds `URLSearchParams.get` for the URL paths the client builds (whose queries
contain no percent-encoding): first `?` starts the query, items are split on
`&`, the first item with the given key wins. -/
def urlSearchParamGet (urlPath : String) (name : String) : Option String :=
  match (jsSplitOnChar '?' urlPath)[1]? with
  | none => none
  | some qs =>
    ((jsSplitOnChar '&' qs).filterMap (fun item =>
      match jsSplitOnChar '=' item with
      | [] => none
      | k :: rest =>
        if k = name then some (String.intercalate "=" rest) else none)).head?

/-- Embeds `CSHubClient.createHubRequestError` (cs_hub_client.ts lines 425-469):
for the `html` format the body is destroyed and the raw `HTTPStatusError` is
returned; otherwise up to 4096 characters of the body are read, an HTML page
(`<!DOCTYPE` prefix) is not used as a message, and for the `json` (or
undefined) format a parsed body with a truthy `error` field supplies the
message; the result is a `CSHubRequestError`. -/
def createHubRequestError (jsonParse : String → Option JsonObj)
    (errorFormat : Option CSHubResponseFormat)
    (code : Nat) (statusMessage : String) (body : String) : JSError :=
  if errorFormat = some .html then
    .statusError statusMessage code
  else
    let responseText := jsTake body 4096
    if jsStartsWith responseText "<!DOCTYPE" then
      .statusError statusMessage code
    else
      let errorMessage :=
        if errorFormat = none ∨ errorFormat = some .json then
          match jsonParse responseText with
          | some j => if jsTruthyOpt j.error then j.error.getD "" else responseText
          | none => responseText
        else
          responseText
      .hubError statusMessage code errorMessage

/-- The `errorFormat2` computation of `CSHubClient.post`
(cs_hub_client.ts lines 551-570): JSON under the modern API, otherwise
plaintext exactly when the target URL carries a true
`response_try_plaintext` parameter, else HTML. -/
def postErrorFormat (openAPI : Bool) (resourceUrlPath : String) : CSHubResponseFormat :=
  if openAPI then
    .json
  else
    match parseCSHubParamBoolean (urlSearchParamGet resourceUrlPath "response_try_plaintext") with
    | some true => .text
    | _ => .html

/-- Outcome of the sign-in POST on the wire: a settled HTTP response, or a
connection-level error rejected by `HTTPClientConnection.request`. -/
inductive PostOutcome where
  | response (code : Nat) (statusMessage : String) (body : String)
  | netError (e : JSError)
  deriving DecidableEq, Repr

/-- Embeds `CSHubClient.post` (cs_hub_client.ts lines 521-584) as used by `signIn`
(`errorFormat` argument undefined at the call): a non-200 status throws the
error built by `createHubRequestError`; a 200 response yields the body. -/
def postSignInModel (jsonParse : String → Option JsonObj)
    (openAPI : Bool) (resourceUrlPath : String) (outcome : PostOutcome) :
    Except JSError String :=
  match outcome with
  | .netError e => .error e
  | .response code statusMessage body =>
    if code ≠ 200 then
      .error (createHubRequestError jsonParse
        (some (postErrorFormat openAPI resourceUrlPath)) code statusMessage body)
    else
      .ok body

/-- Embeds `CS_HUB_PARAM_TRUE` (cs_hub_client.ts line 115). -/
def CS_HUB_PARAM_TRUE : String := "1"

/-- Embeds `signInUrlPath700` (cs_hub_client.ts line 609). -/
def signInUrlPath700 : String := "/?response_try_plaintext=" ++ CS_HUB_PARAM_TRUE

/-- The legacy certificate sign-in form (cs_hub_client.ts lines 632-640), in
property order. -/
def legacySignInCertificateForm : List (String × URIQueryValue) :=
  [("sif_sign_in", .vstr CS_HUB_PARAM_TRUE),
   ("sif_ignore_empty_email", .vstr CS_HUB_PARAM_TRUE),
   ("sif_log_out_competitor", .vstr CS_HUB_PARAM_TRUE),
   ("response_try_plaintext", .vstr CS_HUB_PARAM_TRUE),
   ("sif_use_tls", .vstr CS_HUB_PARAM_TRUE)]

/-- The legacy password sign-in form (cs_hub_client.ts lines 687-696), in
property order. -/
def legacySignInPasswordForm (hubuser password : String) : List (String × URIQueryValue) :=
  [("sif_sign_in", .vstr CS_HUB_PARAM_TRUE),
   ("sif_ignore_empty_email", .vstr CS_HUB_PARAM_TRUE),
   ("sif_log_out_competitor", .vstr CS_HUB_PARAM_TRUE),
   ("response_try_plaintext", .vstr CS_HUB_PARAM_TRUE),
   ("sif_username", .vstr hubuser),
   ("sif_password", .vstr password)]

/-- The authentication-relevant connection options of `CSHubClient.signIn`
(cs_hub_client.ts lines 77-84).  `hubpasswd` is the password-retrieval
callback, modelled by the password it resolves to; `hubpwfileContent` is a
truthy `hubpwfile` path together with the file content the branch reads and
trims (an empty-string path is falsy in the source and is modelled as
`none`). -/
structure SignInConnOptions where
  auth : Option CSHubAuthenticationMethod := none
  hubuser : Option String := none
  hubpasswd : Option String := none
  hubpwfileContent : Option String := none
  hubkey : Bool := false
  deriving DecidableEq, Repr

/-- The POST a sign-in branch prepares (url path, form data, and the branch
flags of cs_hub_client.ts lines 613-616). -/
structure SignInPost where
  signInUrlPath : String
  signInData : String
  isSessionResource : Bool
  isCertificateAuth : Bool
  deriving DecidableEq, Repr

/-- The password resolution of the password branch
(cs_hub_client.ts lines 651-660): the `hubpasswd` callback when configured,
else the trimmed content of a truthy `hubpwfile`, else no password. -/
def signInResolvePassword (opts : SignInConnOptions) : Option String :=
  match opts.hubpasswd with
  | some p => some p
  | none => opts.hubpwfileContent.map jsTrim

/-- Branch selection of `CSHubClient.signIn` (cs_hub_client.ts lines
618-717): which POST (if any) is prepared, or which configuration error is
thrown.  `.ok none` is the legacy anonymous branch, which only clears the
session cookies and bearer token and performs no POST. -/
def signInPlan (opts : SignInConnOptions) (openAPI : Bool) :
    Except JSError (Option SignInPost) :=
  if (opts.auth = none ∧ opts.hubkey) ∨ opts.auth = some .certificate then
    if ¬opts.hubkey then
      .error (.jsError
        "Certificate authentication mode was selected, but certificate and key were not provided.")
    else if openAPI then
      .ok (some
        { signInUrlPath := "/session/create-tls-client-certificate/"
          signInData := "key=bearer"
          isSessionResource := true
          isCertificateAuth := true })
    else
      .ok (some
        { signInUrlPath := signInUrlPath700
          signInData := encodeURIQuery legacySignInCertificateForm
          isSessionResource := false
          isCertificateAuth := true })
  else if (opts.auth = none ∧ jsTruthyOpt opts.hubuser) ∨ opts.auth = some .password then
    if ¬jsTruthyOpt opts.hubuser then
      .error (.jsError
        "Password authentication mode was selected, but user name was not provided.")
    else
      match signInResolvePassword opts with
      | none => .error (.jsError "Hub user password was not provided.")
      | some password =>
        if openAPI then
          .ok (some
            { signInUrlPath := "/session/create-basic-auth/"
              signInData := "key=bearer"
              isSessionResource := true
              isCertificateAuth := false })
        else
          .ok (some
            { signInUrlPath := signInUrlPath700
              signInData := encodeURIQuery
                (legacySignInPasswordForm (opts.hubuser.getD "") password)
              isSessionResource := false
              isCertificateAuth := false })
  else if opts.auth = none ∨ opts.auth = some .anonymous then
    if openAPI then
      .ok (some
        { signInUrlPath := "/session/create-anonymous/"
          signInData := "key=bearer"
          isSessionResource := true
          isCertificateAuth := false })
    else
      .ok none
  else
    .error (.jsError "Could not determine hub authentication method.")

/-- Settlement of the Promise returned by `signIn`: resolution with the
optional sign-in failure message, or rejection. -/
inductive SignInOutcome where
  | resolves (signInMessage : Option String)
  | throws (e : JSError)
  deriving DecidableEq, Repr

/-- The catch block of `CSHubClient.signIn` (cs_hub_client.ts lines
742-759): a `CSHubRequestError` with HTTP code 403 is an ordinary sign-in
failure and resolves with its message; under certificate authentication an
`ECONNRESET` socket error is translated into a certificate-failure
`CSHubRequestError`; everything else is rethrown. -/
def signInCatch (isCertificateAuth : Bool) (e : JSError) : SignInOutcome :=
  if e.isCSHubRequestError ∧ e.statusCode = some 403 then
    .resolves (some e.message)
  else if isCertificateAuth ∧ errorToMessageCode e = some "ECONNRESET" then
    .throws (.hubError "Certificate authentication failed.  Connection reset." 0 "")
  else
    .throws e

/-- Embeds `CSHubClient.signIn` (cs_hub_client.ts lines 600-763): prepare the POST
for the configured credential method, send it, and interpret the outcome.
On a 200 response of a session resource the body (up to 65536 characters) is
parsed as JSON to obtain the bearer token; a parse failure (`SyntaxError`)
propagates out of the async function as a rejection.  The hub capability
info is assumed already fetched (`openAPI` flag); a failure of that fetch
would propagate before any branch runs. -/
def signIn (opts : SignInConnOptions) (openAPI : Bool)
    (jsonParse : String → Option JsonObj) (postOutcome : PostOutcome) :
    SignInOutcome :=
  match signInPlan opts openAPI with
  | .error e => .throws e
  | .ok none => .resolves none
  | .ok (some plan) =>
    match postSignInModel jsonParse openAPI plan.signInUrlPath postOutcome with
    | .ok body =>
      if plan.isSessionResource then
        match jsonParse (jsTake body 65536) with
        | none => .throws (.jsError "SyntaxError: unexpected JSON input")
        | some _ => .resolves none
      else
        .resolves none
    | .error e => signInCatch plan.isCertificateAuth e

/-! ## SARIF search (cs_hub_client.ts lines 1070-1139) -/

/-- Embeds `CSHubSarifSearchOptions` (cs_hub_client.ts lines 106-110), without the
cancellation handle. -/
structure CSHubSarifSearchOptions where
  warningFilter : Option String := none
  indentLength : Option Int := none
  artifactListing : Option Bool := none
  deriving DecidableEq, Repr

/-- Embeds `CSHubClient._makeSarifQueryString` (cs_hub_client.ts lines 1070-1097):
builds the query parameters in source order and encodes them with
`encodeURIQuery`. -/
def makeSarifQueryString (hubCapabilityInfo : CSHubCapabilityInfo)
    (options : Option CSHubSarifSearchOptions) : String :=
  let warningFilter := options.bind (fun o => o.warningFilter)
  let sarifIndentLength := options.bind (fun o => o.indentLength)
  let sarifArtifactListing := options.bind (fun o => o.artifactListing)
  let q0 : List (String × URIQueryValue) := []
  let q1 :=
    if jsTruthyOpt warningFilter then
      q0 ++ [("filter", URIQueryValue.vstr (warningFilter.getD ""))]
    else q0
  let q2 :=
    match sarifIndentLength with
    | some n => q1 ++ [("indent", URIQueryValue.vstr (if n ≥ 0 then toString n else ""))]
    | none => q1
  let q3 :=
    match sarifArtifactListing with
    | some b => q2 ++ [("artifacts", URIQueryValue.vstr (if b then "1" else "0"))]
    | none => q2
  let q4 :=
    if hubCapabilityInfo.openAPI then
      q3 ++ [("response_try_plaintext", URIQueryValue.vstr CS_HUB_PARAM_TRUE)]
    else q3
  encodeURIQuery q4

/-- What `fetchSarifAnalysisDifferenceStream` does before any result bytes
can flow: either throw, or fetch a URL path with effective options. -/
inductive SarifFetchPlan where
  | throws (e : JSError)
  | fetches (urlPath : String) (options2 : CSHubSarifSearchOptions)
  deriving DecidableEq, Repr

/-- Embeds `CSHubClient.fetchSarifAnalysisDifferenceStream` (cs_hub_client.ts lines
1115-1139): without the `sarifSearch` capability it throws before any
request for the results is built; otherwise it combines the two analysis ids
with a `DIFFERENCE` operator, defaults `artifactListing` to disabled, and
fetches `/warning_detail_search.sarif`.  `encodeURIComponentJS` stands for
the platform `encodeURIComponent`. -/
def fetchSarifAnalysisDifferenceStream
    (encodeURIComponentJS : String → String)
    (hubCapabilityInfo : CSHubCapabilityInfo)
    (headAnalysisId baseAnalysisId : String)
    (options : Option CSHubSarifSearchOptions) : SarifFetchPlan :=
  if ¬hubCapabilityInfo.sarifSearch then
    .throws (.jsError
      "CodeSonar hub version 7.1 or later is required to get warning difference search results in SARIF format.")
  else
    let scope := "aid:" ++ headAnalysisId
    let query := "aid:" ++ headAnalysisId ++ " DIFFERENCE aid:" ++ baseAnalysisId
    let options1 := options.getD {}
    let options2 :=
      if options1.artifactListing = none then
        { options1 with artifactListing := some false }
      else
        options1
    let sarifAnalysisUrlPath :=
      "/warning_detail_search.sarif?scope=" ++ encodeURIComponentJS scope ++
      "&query=" ++ encodeURIComponentJS query
    let queryString := makeSarifQueryString hubCapabilityInfo (some options2)
    let urlPath :=
      if queryString ≠ "" then
        sarifAnalysisUrlPath ++ "&" ++ queryString
      else
        sarifAnalysisUrlPath
    .fetches urlPath options2

/-! ## SARIF download rejection (sarif_download_command.ts, part_008 lines
1808-1829) -/

/-- Embeds `CancellationSignal.createCancellationError` as implemented by
`VSCodeCancellationSignal` (vscode_ex.ts lines 90-92): a fresh
`OperationCancelledError`.  The class body is not under `src/`; Modelled
from the spec: a distinguished cancellation error. -/
def createCancellationError : JSError :=
  .cancelled "Operation was cancelled."

/-- Observable effects of the `reject` wrapper of `downloadSarifResults`. -/
structure DownloadRejection where
  rejectionError : JSError
  destinationRemoved : Bool
  deriving DecidableEq, Repr

/-- The `reject` wrapper installed by `downloadSarifResults`
(part_008 lines 1812-1829): on any failure it stops the progress timer, ends
the destination stream and unlinks the destination file, and, when a
cancellation was requested, replaces the incoming error (typically an
`ECONNRESET` socket error) by a fresh cancellation error before rejecting. -/
def downloadSarifResultsReject (isCancellationRequested : Bool) (e : JSError) :
    DownloadRejection :=
  { rejectionError := if isCancellationRequested then createCancellationError else e
    destinationRemoved := true }

/-! ## Theorems -/

theorem csUnescapeChars_esc_cons (d : Char) (ds : List Char) :
    csUnescapeChars (csESC :: d :: ds) =
      (csUnescapeChars ds).map (fun r => d :: r) := by
  rw [csUnescapeChars.eq_def]
  simp

theorem csUnescapeChars_plain_cons (c : Char) (cs : List Char) (h : c ≠ csESC) :
    csUnescapeChars (c :: cs) = (csUnescapeChars cs).map (fun r => c :: r) := by
  rw [csUnescapeChars.eq_def]
  simp [h]

theorem csUnescapeChars_flatten_map (l : List Char) :
    csUnescapeChars ((l.map csEscapeChar).flatten) = some l := by
  induction l with
  | nil => rfl
  | cons c l ih =>
    by_cases h1 : c = csESC
    · subst h1
      simp [csEscapeChar, csUnescapeChars_esc_cons, ih]
    · by_cases h2 : c = csQUOTE
      · subst h2
        simp [csEscapeChar, csUnescapeChars_esc_cons, ih,
          (by decide : csQUOTE ≠ csESC)]
      · by_cases h3 : c = csAPOS
        · subst h3
          simp [csEscapeChar, csUnescapeChars_esc_cons, ih,
            (by decide : csAPOS ≠ csESC), (by decide : csAPOS ≠ csQUOTE)]
        · simp [csEscapeChar, csUnescapeChars_plain_cons _ _ h1, h1, h2, h3, ih]

/-- The concrete example of spec section 8: the string
`She said "hi" and it's \ cool` (built from character codes to keep the
source free of embedded quote characters). -/
def csSearchExample : String :=
  String.mk ("She said ".data ++ [csQUOTE] ++ "hi".data ++ [csQUOTE] ++
    " and it".data ++ [csAPOS] ++ "s ".data ++ [csESC] ++ " cool".data)

/-- The expected encoding of `csSearchExample`: wrapped in double quotes,
with the embedded quotes, apostrophe and backslash each preceded by a
backslash. -/
def csSearchExampleEncoded : String :=
  String.mk ([csQUOTE] ++ "She said ".data ++ [csESC, csQUOTE] ++ "hi".data ++
    [csESC, csQUOTE] ++ " and it".data ++ [csESC, csAPOS] ++ "s ".data ++
    [csESC, csESC] ++ " cool".data ++ [csQUOTE])

/-- C9: `encodeCSSearchStringLiteral` wraps its input in double quotes and
escapes exactly the embedded backslash, double-quote and single-quote
characters (leaving every other character unchanged), and the reference
unescape (strip the outer quotes, drop one level of backslash escaping)
recovers the original string exactly, including on the spec's example
`She said "hi" and it's \ cool`. -/
theorem encodeCSSearchStringLiteral_roundTrip :
    (∀ s : String,
      decodeCSSearchStringLiteral (encodeCSSearchStringLiteral s) = some s)
    ∧ (∀ c : Char, (c = csESC ∨ c = csQUOTE ∨ c = csAPOS) →
        csEscapeChar c = [csESC, c])
    ∧ (∀ c : Char, c ≠ csESC → c ≠ csQUOTE → c ≠ csAPOS → csEscapeChar c = [c])
    ∧ encodeCSSearchStringLiteral csSearchExample = csSearchExampleEncoded
    ∧ decodeCSSearchStringLiteral csSearchExampleEncoded = some csSearchExample := by
  refine ⟨?_, ?_, ?_, by decide, by decide⟩
  · intro s
    unfold encodeCSSearchStringLiteral decodeCSSearchStringLiteral
    simp [csUnescapeChars_flatten_map]
  · rintro c (rfl | rfl | rfl) <;> simp [csEscapeChar] <;> decide
  · intro c h1 h2 h3
    simp [csEscapeChar, h1, h2, h3]

/-- Closed instance of `encodeCSSearchStringLiteral_roundTrip`, discharging
its escaped-character hypothesis at the backslash character. -/
theorem encodeCSSearchStringLiteral_roundTrip_witness :
    csEscapeChar csESC = [csESC, csESC] :=
  encodeCSSearchStringLiteral_roundTrip.2.1 csESC (Or.inl rfl)

/-- C10: `encodeURIQuery` performs no percent-encoding (a string value is
emitted verbatim, booleans map to `"1"`/`"0"`, `undefined` and `null` to the
empty string), and it is not injective: the distinct objects
`{a: "x&b=y"}` and `{a: "x", b: "y"}` encode to the same string.  The
legacy password sign-in form is encoded by exactly this function. -/
theorem encodeURIQuery_not_injective :
    encodeURIQuery [("a", .vstr "x&b=y")] = "a=x&b=y"
    ∧ encodeURIQuery [("a", .vstr "x"), ("b", .vstr "y")] = "a=x&b=y"
    ∧ ([("a", URIQueryValue.vstr "x&b=y")] : List (String × URIQueryValue)) ≠
        [("a", .vstr "x"), ("b", .vstr "y")]
    ∧ (∀ k s : String, encodeURIQuery [(k, .vstr s)] = k ++ "=" ++ s)
    ∧ (∀ b, uriQueryValueString (.vbool b) = if b then "1" else "0")
    ∧ uriQueryValueString .vundefined = ""
    ∧ uriQueryValueString .vnull = ""
    ∧ (∀ password : String,
        signInPlan { auth := some .password, hubuser := some "u",
                     hubpasswd := some password } false =
          .ok (some
            { signInUrlPath := signInUrlPath700
              signInData := encodeURIQuery (legacySignInPasswordForm "u" password)
              isSessionResource := false
              isCertificateAuth := false })) := by
  refine ⟨by decide, by decide, by decide, ?_, by decide, by decide, by decide, ?_⟩
  · intro k s
    rfl
  · intro password
    rfl

/-- C6: a record id arriving as a JSON number throws when it exceeds
`2^53 - 1` (in particular `9007199254740993` throws), the same value passed
as a string is accepted and returned unchanged, and every accepted id is
normalized to its string form. -/
theorem parseCSHubRecordId_safeIntegerRange :
    (∃ e, parseCSProjectId (.num 9007199254740993) = .error e)
    ∧ parseCSProjectId (.str "9007199254740993") = .ok "9007199254740993"
    ∧ (∀ n : Int, n > 2 ^ 53 - 1 → ∃ e, parseCSAnalysisId (.num n) = .error e)
    ∧ (∀ x s, parseCSHubRecordId x = .ok s → s = recordIdToString x)
    ∧ (∀ s, parseCSHubRecordId (.str s) = .ok s)
    ∧ (∀ n : Int, parseCSHubRecordId (.bigintVal n) = .ok (toString n)) := by
  refine ⟨⟨_, rfl⟩, rfl, ?_, ?_, ?_, ?_⟩
  · intro n hn
    refine ⟨JSError.jsError
      ("CodeSonar hub ID value " ++ toString n ++
       " is too large to be accurately represented as a number type."), ?_⟩
    simp only [parseCSAnalysisId, parseCSHubRecordId, MAX_CSHUB_RECORD_ID_NUMBER]
    rw [if_pos (by omega)]
  · intro x s h
    cases x with
    | num n =>
      simp only [parseCSHubRecordId] at h
      split at h
      · exact absurd h (by simp)
      · injection h with h2
        exact h2.symm
    | bigintVal n =>
      injection h with h2
      exact h2.symm
    | str s2 =>
      injection h with h2
      exact h2.symm
  · intro s
    rfl
  · intro n
    rfl

/-- Closed instance of `parseCSHubRecordId_safeIntegerRange`, discharging the
range hypothesis at `2^53` (the first unsafe integer). -/
theorem parseCSHubRecordId_safeIntegerRange_witness :
    ∃ e, parseCSAnalysisId (.num 9007199254740992) = .error e :=
  parseCSHubRecordId_safeIntegerRange.2.2.1 9007199254740992 (by norm_num)

/-- C3: a capability probe answered 404 yields the all-false capability set
and is cached as the `null` sentinel, after which later calls never consult
the fetch again; a probe declaring `hubVersionNumber` 710 with
`capabilities.openapi` true yields all three capabilities; `resultLimiting`
and `sarifSearch` hold exactly when the declared version number exceeds 700,
and `openAPI` holds exactly when the explicit `openapi` flag is true. -/
theorem hubCapabilityInfo_probe_and_cache :
    (∀ cn cv sm : String,
      getVersionCompatibilityInfo (some cn) (some cv) .notTried
        (.error (.statusError sm 404)) = .ok (none, .triedAbsent))
    ∧ getHubCapabilityInfo none =
        { hubVersionString := "", hubVersionNumber := 0, openAPI := false,
          resultLimiting := false, sarifSearch := false }
    ∧ (∀ cn cv fetchResult,
        getVersionCompatibilityInfo cn cv .triedAbsent fetchResult =
          .ok (none, .triedAbsent))
    ∧ (∀ hubVersion : String, ∀ hubProtocol : Int,
        getHubCapabilityInfo (some
          { hubVersion := hubVersion, hubVersionNumber := 710,
            hubProtocol := hubProtocol,
            capabilities := some { openapi := some true } }) =
        { hubVersionString := hubVersion, hubVersionNumber := 710,
          openAPI := true, resultLimiting := true, sarifSearch := true })
    ∧ (∀ ci, ((getHubCapabilityInfo (some ci)).resultLimiting = true ↔
        ci.hubVersionNumber > 700))
    ∧ (∀ ci, ((getHubCapabilityInfo (some ci)).sarifSearch = true ↔
        ci.hubVersionNumber > 700))
    ∧ (∀ ci, ((getHubCapabilityInfo (some ci)).openAPI = true ↔
        (ci.capabilities.bind fun c => c.openapi) = some true)) := by
  refine ⟨fun cn cv sm => rfl, rfl, fun cn cv fetchResult => rfl,
    fun hubVersion hubProtocol => by simp [getHubCapabilityInfo], ?_, ?_, ?_⟩
  · intro ci
    simp [getHubCapabilityInfo]
  · intro ci
    simp [getHubCapabilityInfo]
  · intro ci
    simp [getHubCapabilityInfo]

/-- C4: once cancellation has been requested, the download rejection path
always rejects with the cancellation-classified error (even when the
underlying socket reported `ECONNRESET`, which is not itself
cancellation-classified), and the destination file is removed on every
rejection. -/
theorem downloadSarifResults_cancellation_precedence :
    (∀ e, (downloadSarifResultsReject true e).rejectionError =
      createCancellationError)
    ∧ (∀ e, (downloadSarifResultsReject true e).rejectionError.isCancellation = true)
    ∧ (downloadSarifResultsReject true (.errno "ECONNRESET" "aborted")).rejectionError =
        createCancellationError
    ∧ (JSError.errno "ECONNRESET" "aborted").isCancellation = false
    ∧ (∀ c e, (downloadSarifResultsReject c e).destinationRemoved = true) := by
  refine ⟨fun e => rfl, fun e => rfl, rfl, rfl, fun c e => ?_⟩
  cases c <;> rfl

/-- Date oracle for the cookie evaluation below: parses the one RFC-1123
date string used, 10 seconds after the epoch. -/
def cookieTestParseDate : String → Option Int :=
  fun s => if s = "Thu, 01 Jan 1970 00:00:10 GMT" then some 10000 else none

/-- C5 evaluation at the failing input: a cookie whose `Expires` deadline
(epoch + 10s) has already elapsed at request time (epoch + 1000s) is still
returned by the cookie jar, while at a request time before the deadline
(epoch + 5ms) the still-valid cookie is evicted — the eviction comparisons
are reversed.  The replacement half of the claim does hold: a later
Set-Cookie for the same (name, domain, path) key replaces the stored
value. -/
theorem cookieJar_returns_elapsed_cookie :
    requestCookiesAt 1000000
      (storeSetCookies cookieTestParseDate []
        ["sid=abc; Expires=Thu, 01 Jan 1970 00:00:10 GMT"] (some 0)) = ["sid=abc"]
    ∧ requestCookiesAt 5
        (storeSetCookies cookieTestParseDate []
          ["sid=abc; Expires=Thu, 01 Jan 1970 00:00:10 GMT"] (some 0)) = []
    ∧ (List.map (fun kv => kv.2.cookie)
        (storeSetCookies cookieTestParseDate
          (storeSetCookies cookieTestParseDate []
            ["sid=abc; Expires=Thu, 01 Jan 1970 00:00:10 GMT"] (some 0))
          ["sid=zzz; Expires=Thu, 01 Jan 1970 00:00:10 GMT"] (some 1))) =
        ["sid=zzz"] := by
  refine ⟨?_, ?_, ?_⟩ <;> rfl


/-- C7: without the `sarifSearch` capability,
`fetchSarifAnalysisDifferenceStream` throws the upgrade-hub error before any
request for the results is built; with the capability, the fetched query
combines the head and base analysis ids with a `DIFFERENCE` operator, and
`artifactListing` defaults to disabled unless the caller set it. -/
theorem fetchSarifAnalysisDifferenceStream_capabilityGated
    (encU : String → String) (cap : CSHubCapabilityInfo)
    (headAnalysisId baseAnalysisId : String)
    (options : Option CSHubSarifSearchOptions) :
    (cap.sarifSearch = false →
      fetchSarifAnalysisDifferenceStream encU cap headAnalysisId baseAnalysisId
          options =
        .throws (.jsError
          "CodeSonar hub version 7.1 or later is required to get warning difference search results in SARIF format."))
    ∧ (cap.sarifSearch = true →
        ∃ querySuffix opts2,
          fetchSarifAnalysisDifferenceStream encU cap headAnalysisId
              baseAnalysisId options =
            .fetches
              ("/warning_detail_search.sarif?scope=" ++
                encU ("aid:" ++ headAnalysisId) ++
                "&query=" ++
                encU ("aid:" ++ headAnalysisId ++ " DIFFERENCE aid:" ++
                  baseAnalysisId) ++
                querySuffix)
              opts2
          ∧ opts2.artifactListing =
              some ((options.getD {}).artifactListing.getD false)
          ∧ opts2.warningFilter = (options.getD {}).warningFilter
          ∧ opts2.indentLength = (options.getD {}).indentLength) := by
  constructor
  · intro h
    simp [fetchSarifAnalysisDifferenceStream, h]
  · intro h
    by_cases ha : (options.getD {}).artifactListing = none
    · refine ⟨(if makeSarifQueryString cap
            (some { options.getD {} with artifactListing := some false }) ≠ ""
          then "&" ++ makeSarifQueryString cap
            (some { options.getD {} with artifactListing := some false })
          else ""),
        { options.getD {} with artifactListing := some false }, ?_, ?_, rfl, rfl⟩
      · simp only [fetchSarifAnalysisDifferenceStream, h, ha, not_true,
          Bool.not_true, Bool.false_eq_true, not_false_eq_true, if_true,
          if_false, reduceIte]
        split
        · simp [String.append_assoc]
        · simp
      · rw [ha]
        rfl
    · obtain ⟨b, hb⟩ := Option.ne_none_iff_exists'.mp ha
      refine ⟨(if makeSarifQueryString cap (some (options.getD {})) ≠ ""
          then "&" ++ makeSarifQueryString cap (some (options.getD {}))
          else ""),
        options.getD {}, ?_, ?_, rfl, rfl⟩
      · simp only [fetchSarifAnalysisDifferenceStream, h, ha, not_true,
          Bool.not_true, Bool.false_eq_true, not_false_eq_true, if_true,
          if_false, reduceIte]
        split
        · simp [String.append_assoc]
        · simp
      · rw [hb]
        rfl

/-- Closed instance of `fetchSarifAnalysisDifferenceStream_capabilityGated`,
discharging its capability hypothesis at a pre-7.1 capability set. -/
theorem fetchSarifAnalysisDifferenceStream_capabilityGated_witness :
    fetchSarifAnalysisDifferenceStream id
      { hubVersionString := "7.0.0", hubVersionNumber := 700, openAPI := false,
        resultLimiting := false, sarifSearch := false } "11" "7" none =
    .throws (.jsError
      "CodeSonar hub version 7.1 or later is required to get warning difference search results in SARIF format.") :=
  (fetchSarifAnalysisDifferenceStream_capabilityGated id _ "11" "7" none).1 rfl

/-- C8: a target URL whose origin differs from the connection's own makes the
request Promise reject with a fatal error (no silent rewrite); a 301 response
whose redirect target resolves to the same origin is re-requested
recursively, while a 301 whose redirect target resolves to a different origin
is not followed: the 301 response itself is resolved to the caller after
logging. -/
theorem request_origin_guard_and_redirects
    (resolveUrl : String → String → UrlModel) (baseUrlString : String)
    (env : UrlModel → Except JSError RespModel) (fuel : Nat)
    (target : UrlModel) :
    (target.origin ≠ baseUrlString →
      requestModel resolveUrl baseUrlString env (fuel + 1) target =
        .rejected (.jsError
          ("Requested URL origin " ++ target.origin ++
           " does not match the HTTP connection to " ++ baseUrlString)))
    ∧ (∀ resp loc, target.origin = baseUrlString →
        env target = .ok resp → resp.code = 301 →
        resp.location = some loc → loc ≠ "" →
        (resolveUrl loc baseUrlString).origin = baseUrlString →
        requestModel resolveUrl baseUrlString env (fuel + 1) target =
          requestModel resolveUrl baseUrlString env fuel
            (resolveUrl loc baseUrlString))
    ∧ (∀ resp loc, target.origin = baseUrlString →
        env target = .ok resp → resp.code = 301 →
        resp.location = some loc → loc ≠ "" →
        (resolveUrl loc baseUrlString).origin ≠ baseUrlString →
        requestModel resolveUrl baseUrlString env (fuel + 1) target =
          .resolved
            { url := target, code := resp.code, message := resp.message,
              bodyText := resp.bodyText }) := by
  have hstep : ∀ t, requestModel resolveUrl baseUrlString env (fuel + 1) t =
      requestModelStep resolveUrl baseUrlString env
        (requestModel resolveUrl baseUrlString env fuel) t := fun t => rfl
  refine ⟨?_, ?_, ?_⟩
  · intro h
    rw [hstep]
    unfold requestModelStep
    rw [if_pos h]
  · intro resp loc horigin henv hcode hloc hlocne hred
    rw [hstep]
    unfold requestModelStep
    rw [if_neg (by simp [horigin]), henv]
    simp only [hcode, reduceIte, hloc, Option.getD_some]
    rw [if_neg (by simpa using hlocne), if_neg (by simp [hred])]
  · intro resp loc horigin henv hcode hloc hlocne hred
    rw [hstep]
    unfold requestModelStep
    rw [if_neg (by simp [horigin]), henv]
    simp only [hcode, reduceIte, hloc, Option.getD_some]
    rw [if_neg (by simpa using hlocne), if_pos hred]

/-- Closed instance of `request_origin_guard_and_redirects`, discharging its
hypotheses at a concrete connection, network environment and redirect. -/
theorem request_origin_guard_and_redirects_witness :
    requestModel (fun loc _ => { origin := "http://evil.test", href := loc })
      "http://hub.test"
      (fun _ => .ok { code := 301, message := "Moved Permanently",
                      location := some "http://evil.test/" })
      1 { origin := "http://hub.test", href := "http://hub.test/" } =
    .resolved
      { url := { origin := "http://hub.test", href := "http://hub.test/" },
        code := 301, message := "Moved Permanently", bodyText := "" } :=
  (request_origin_guard_and_redirects
      (fun loc _ => { origin := "http://evil.test", href := loc })
      "http://hub.test"
      (fun _ => .ok { code := 301, message := "Moved Permanently",
                      location := some "http://evil.test/" })
      0 { origin := "http://hub.test", href := "http://hub.test/" }).2.2
    { code := 301, message := "Moved Permanently",
      location := some "http://evil.test/" }
    "http://evil.test/" rfl rfl rfl rfl (by decide) (by decide)

/-- C2 counterexample: with a CA certificate file configured and a scheme-less
hub address, the first `getHttpClientConnection` call issues no HTTPS probe at
all — even when the probe environment would answer 301 (which the claim says
switches the connection to plain HTTP), the connection is created directly
over HTTPS. -/
theorem getHttpClientConnection_cafile_skips_probe :
    getHttpClientConnection
      { protocol := none, hostname := "hub.test", port := none }
      { cafile := true } (.response 301) none =
      .ok ⟨⟨"https", "hub.test", none, true, false⟩,
           some ⟨"https", "hub.test", none, true, false⟩,
           false⟩ := by
  rfl

/-- The plain-HTTP connection built when scheme detection falls back. -/
def probeConnHttp (hubAddress : CSHubAddressModel) : ConnModel :=
  { protocol := "http", hostname := hubAddress.hostname,
    port := hubAddress.port, hasCA := false, hasClientCert := false }

/-- The HTTPS connection built when scheme detection keeps HTTPS. -/
def probeConnHttps (hubAddress : CSHubAddressModel) : ConnModel :=
  { protocol := "https", hostname := hubAddress.hostname,
    port := hubAddress.port, hasCA := false, hasClientCert := false }

/-- C2 (amended): when the hub address omits a scheme and neither a CA file
nor client-certificate key material is configured (each of which forces HTTPS
with no probe), the first call probes over HTTPS: a 301 response switches the
connection to plain HTTP, any other response keeps HTTPS, a connection-level
failure with error code `EPROTO` or `ECONNREFUSED` falls back to plain HTTP,
and any other error (for example a self-signed-certificate rejection)
propagates to the caller; once a connection has been built it is cached, and
every later call returns it without consulting the probe. -/
theorem getHttpClientConnection_scheme_detection
    (hubAddress : CSHubAddressModel) (options : CSHubConnOptionsModel)
    (hscheme : hubAddress.protocol = none)
    (hca : options.cafile = false)
    (hkey : ¬((options.auth = none ∨
               options.auth = some CSHubAuthenticationMethod.certificate)
              ∧ options.hubkey = true)) :
    (getHttpClientConnection hubAddress options (.response 301) none =
      .ok ⟨probeConnHttp hubAddress, some (probeConnHttp hubAddress), true⟩)
    ∧ (∀ code, code ≠ 301 →
        getHttpClientConnection hubAddress options (.response code) none =
          .ok ⟨probeConnHttps hubAddress, some (probeConnHttps hubAddress), true⟩)
    ∧ (∀ e, ((errorToMessageCode e).getD "" = "EPROTO"
          ∨ (errorToMessageCode e).getD "" = "ECONNREFUSED") →
        getHttpClientConnection hubAddress options (.connError e) none =
          .ok ⟨probeConnHttp hubAddress, some (probeConnHttp hubAddress), true⟩)
    ∧ (∀ e, (errorToMessageCode e).getD "" ≠ "EPROTO" →
        (errorToMessageCode e).getD "" ≠ "ECONNREFUSED" →
        getHttpClientConnection hubAddress options (.connError e) none =
          .error e)
    ∧ (∀ conn probe2,
        getHttpClientConnection hubAddress options probe2 (some conn) =
          .ok ⟨conn, some conn, false⟩) := by
  refine ⟨?_, ?_, ?_, ?_, ?_⟩
  · simp only [getHttpClientConnection]
    rw [hscheme, hca, if_neg hkey]
    simp [probeConnHttp, normalizeProtocolString, jsToLower, hkey]
  · intro code hc
    simp only [getHttpClientConnection]
    rw [hscheme, hca, if_neg hkey]
    simp [hc, probeConnHttps, normalizeProtocolString, jsToLower, hkey]
  · intro e he
    simp only [getHttpClientConnection]
    rw [hscheme, hca, if_neg hkey]
    rcases he with h | h <;>
      simp [h, probeConnHttp, normalizeProtocolString, jsToLower, hkey]
  · intro e h1 h2
    simp only [getHttpClientConnection]
    rw [hscheme, hca, if_neg hkey]
    simp [h1, h2, hkey]
  · intro conn probe2
    rfl

/-- Closed instance of `getHttpClientConnection_scheme_detection`,
discharging its hypotheses at a concrete scheme-less address and a
self-signed-certificate probe failure, which propagates. -/
theorem getHttpClientConnection_scheme_detection_witness :
    getHttpClientConnection
      { protocol := none, hostname := "hub.test", port := none }
      {}
      (.connError (.errno "DEPTH_ZERO_SELF_SIGNED_CERT" "self signed certificate"))
      none =
      .error (.errno "DEPTH_ZERO_SELF_SIGNED_CERT" "self signed certificate") :=
  (getHttpClientConnection_scheme_detection
      { protocol := none, hostname := "hub.test", port := none } {}
      rfl rfl (by decide)).2.2.2.1
    (.errno "DEPTH_ZERO_SELF_SIGNED_CERT" "self signed certificate")
    (by decide) (by decide)


/-- Every POST prepared by a legacy (pre-openAPI) sign-in branch targets
`signInUrlPath700` (whose URL carries `response_try_plaintext=1`) and is not
a session resource. -/
theorem signInPlan_legacy_shape (opts : SignInConnOptions) (plan : SignInPost)
    (h : signInPlan opts false = .ok (some plan)) :
    plan.signInUrlPath = signInUrlPath700 ∧ plan.isSessionResource = false := by
  unfold signInPlan at h
  simp only [Bool.false_eq_true, if_false] at h
  split_ifs at h
  all_goals try split at h
  all_goals first
    | (injection h with h; injection h with h; subst h; exact ⟨rfl, rfl⟩)
    | (injection h with h; injection h)
    | injection h

/-- Embeds `createHubRequestError` always carries the HTTP status code of the
response it was built from. -/
theorem createHubRequestError_statusCode
    (jsonParse : String → Option JsonObj) (fmt : Option CSHubResponseFormat)
    (code : Nat) (sm body : String) :
    (createHubRequestError jsonParse fmt code sm body).statusCode = some code := by
  unfold createHubRequestError
  split_ifs
  · rfl
  all_goals dsimp only
  all_goals split <;> rfl

/-- For a readable error format and a body that is not an HTML page,
`createHubRequestError` builds a `CSHubRequestError`. -/
theorem createHubRequestError_nonHtml
    (jsonParse : String → Option JsonObj) (fmt : Option CSHubResponseFormat)
    (code : Nat) (sm body : String)
    (hfmt : fmt ≠ some .html)
    (hbody : jsStartsWith (jsTake body 4096) "<!DOCTYPE" = false) :
    ∃ em, createHubRequestError jsonParse fmt code sm body = .hubError sm code em := by
  simp only [createHubRequestError]
  rw [if_neg hfmt, if_neg (by simp [hbody])]
  exact ⟨_, rfl⟩

/-- C1 (amended): for every configured credential method, `signIn` resolves
with the hub's failure message on an HTTP 403 sign-in response whose body is
not an HTML page (the message is non-empty whenever the HTTP status message
is non-empty), resolves with no message on success (for the legacy anonymous
branch, on any outcome, since no POST is issued; for a session resource,
provided the bearer body parses), and throws on every other failure:
connection-level errors, other HTTP statuses, a 403 whose body is an HTML
page, and missing credential configuration.  The last four conjuncts show
each configured method does prepare a sign-in plan. -/
theorem signIn_outcome_classification
    (opts : SignInConnOptions) (openAPI : Bool)
    (jsonParse : String → Option JsonObj) :
    (∀ plan sm body, signInPlan opts openAPI = .ok (some plan) →
      jsStartsWith (jsTake body 4096) "<!DOCTYPE" = false →
      ∃ m, signIn opts openAPI jsonParse (.response 403 sm body) =
            .resolves (some m) ∧ (sm ≠ "" → m ≠ ""))
    ∧ (∀ plan sm body, signInPlan opts openAPI = .ok (some plan) →
        (plan.isSessionResource = true → (jsonParse (jsTake body 65536)).isSome) →
        signIn opts openAPI jsonParse (.response 200 sm body) = .resolves none)
    ∧ (signInPlan opts openAPI = .ok none →
        ∀ outcome, signIn opts openAPI jsonParse outcome = .resolves none)
    ∧ (∀ plan e, signInPlan opts openAPI = .ok (some plan) →
        e.isCSHubRequestError = false →
        ∃ e2, signIn opts openAPI jsonParse (.netError e) = .throws e2)
    ∧ (∀ plan code sm body, signInPlan opts openAPI = .ok (some plan) →
        code ≠ 200 → code ≠ 403 →
        ∃ e2, signIn opts openAPI jsonParse (.response code sm body) = .throws e2)
    ∧ (∀ outcome, opts.auth = some .certificate → opts.hubkey = false →
        signIn opts openAPI jsonParse outcome = .throws (.jsError
          "Certificate authentication mode was selected, but certificate and key were not provided."))
    ∧ (∀ outcome, opts.auth = some .password → jsTruthyOpt opts.hubuser = false →
        signIn opts openAPI jsonParse outcome = .throws (.jsError
          "Password authentication mode was selected, but user name was not provided."))
    ∧ (∀ outcome, opts.auth = some .password → jsTruthyOpt opts.hubuser = true →
        opts.hubpasswd = none → opts.hubpwfileContent = none →
        signIn opts openAPI jsonParse outcome = .throws (.jsError
          "Hub user password was not provided."))
    ∧ (opts.auth = some .certificate → opts.hubkey = true →
        ∃ plan, signInPlan opts openAPI = .ok (some plan))
    ∧ (opts.auth = some .password → jsTruthyOpt opts.hubuser = true →
        (opts.hubpasswd ≠ none ∨ opts.hubpwfileContent ≠ none) →
        ∃ plan, signInPlan opts openAPI = .ok (some plan))
    ∧ (opts.auth = some .anonymous → openAPI = false →
        signInPlan opts openAPI = .ok none)
    ∧ (opts.auth = some .anonymous → openAPI = true →
        ∃ plan, signInPlan opts openAPI = .ok (some plan)) := by
  refine ⟨?_, ?_, ?_, ?_, ?_, ?_, ?_, ?_, ?_, ?_, ?_, ?_⟩
  · intro plan sm body hplan hbody
    have hfmt : some (postErrorFormat openAPI plan.signInUrlPath) ≠
        some CSHubResponseFormat.html := by
      cases openAPI with
      | true => simp [postErrorFormat]
      | false =>
        obtain ⟨hpath, _⟩ := signInPlan_legacy_shape opts plan hplan
        rw [hpath]
        decide
    obtain ⟨em, hem⟩ := createHubRequestError_nonHtml jsonParse
      (some (postErrorFormat openAPI plan.signInUrlPath)) 403 sm body hfmt hbody
    refine ⟨(JSError.hubError sm 403 em).message, ?_, ?_⟩
    · unfold signIn
      rw [hplan]
      simp only [postSignInModel]
      rw [if_pos (by decide : (403 : Nat) ≠ 200), hem]
      dsimp only
      rfl
    · intro hsm
      simp only [JSError.message]
      split
      · assumption
      · exact hsm
  · intro plan sm body hplan hjson
    unfold signIn
    rw [hplan]
    simp only [postSignInModel]
    rw [if_neg (by decide : ¬((200 : Nat) ≠ 200))]
    dsimp only
    cases hs : plan.isSessionResource with
    | false => simp [hs]
    | true =>
      obtain ⟨j, hj⟩ := Option.isSome_iff_exists.mp (hjson hs)
      simp [hs, hj]
  · intro hplan outcome
    unfold signIn
    rw [hplan]
  · intro plan e hplan he
    unfold signIn
    rw [hplan]
    simp only [postSignInModel]
    unfold signInCatch
    rw [if_neg (by simp [he])]
    by_cases hc : plan.isCertificateAuth = true ∧ errorToMessageCode e = some "ECONNRESET"
    · exact ⟨_, by rw [if_pos hc]⟩
    · exact ⟨e, by rw [if_neg hc]⟩
  · intro plan code sm body hplan h200 h403
    unfold signIn
    rw [hplan]
    simp only [postSignInModel]
    rw [if_pos h200]
    dsimp only
    unfold signInCatch
    rw [if_neg (fun hcon =>
      h403 (by simpa [createHubRequestError_statusCode] using hcon.2))]
    by_cases hc : plan.isCertificateAuth = true ∧
        errorToMessageCode (createHubRequestError jsonParse
          (some (postErrorFormat openAPI plan.signInUrlPath)) code sm body) =
          some "ECONNRESET"
    · exact ⟨_, by rw [if_pos hc]⟩
    · exact ⟨_, by rw [if_neg hc]⟩
  · intro outcome hauth hkeyf
    have hplan : signInPlan opts openAPI = .error (.jsError
        "Certificate authentication mode was selected, but certificate and key were not provided.") := by
      unfold signInPlan
      rw [if_pos (Or.inr hauth), if_pos (by simp [hkeyf])]
    unfold signIn
    rw [hplan]
  · intro outcome hauth huserf
    have hplan : signInPlan opts openAPI = .error (.jsError
        "Password authentication mode was selected, but user name was not provided.") := by
      unfold signInPlan
      rw [if_neg (by simp [hauth]), if_pos (Or.inr hauth), if_pos (by simp [huserf])]
    unfold signIn
    rw [hplan]
  · intro outcome hauth husert hpw hpwf
    have hpass : signInResolvePassword opts = none := by
      unfold signInResolvePassword
      rw [hpw, hpwf]
      rfl
    have hplan : signInPlan opts openAPI = .error (.jsError
        "Hub user password was not provided.") := by
      unfold signInPlan
      rw [if_neg (by simp [hauth]), if_pos (Or.inr hauth),
        if_neg (by simp [husert]), hpass]
    unfold signIn
    rw [hplan]
  · intro hauth hkeyt
    cases openAPI with
    | true =>
      exact ⟨⟨"/session/create-tls-client-certificate/", "key=bearer", true, true⟩,
        by unfold signInPlan; rw [if_pos (Or.inr hauth), if_neg (by simp [hkeyt])]; rfl⟩
    | false =>
      exact ⟨⟨signInUrlPath700, encodeURIQuery legacySignInCertificateForm, false, true⟩,
        by unfold signInPlan; rw [if_pos (Or.inr hauth), if_neg (by simp [hkeyt])]; rfl⟩
  · intro hauth husert hor
    have hpass : ∃ pw, signInResolvePassword opts = some pw := by
      unfold signInResolvePassword
      rcases hp : opts.hubpasswd with _ | p
      · rcases hf : opts.hubpwfileContent with _ | c
        · rcases hor with h | h
          · exact absurd hp h
          · exact absurd hf h
        · exact ⟨jsTrim c, rfl⟩
      · exact ⟨p, rfl⟩
    obtain ⟨pw, hpw2⟩ := hpass
    cases openAPI with
    | true =>
      exact ⟨⟨"/session/create-basic-auth/", "key=bearer", true, false⟩, by
        unfold signInPlan
        rw [if_neg (by simp [hauth]), if_pos (Or.inr hauth),
          if_neg (by simp [husert]), hpw2]
        rfl⟩
    | false =>
      exact ⟨⟨signInUrlPath700,
          encodeURIQuery (legacySignInPasswordForm (opts.hubuser.getD "") pw),
          false, false⟩, by
        unfold signInPlan
        rw [if_neg (by simp [hauth]), if_pos (Or.inr hauth),
          if_neg (by simp [husert]), hpw2]
        rfl⟩
  · intro hauth hfalse
    subst hfalse
    unfold signInPlan
    rw [if_neg (by simp [hauth]), if_neg (by simp [hauth]), if_pos (Or.inr hauth)]
    rfl
  · intro hauth htrue
    subst htrue
    exact ⟨⟨"/session/create-anonymous/", "key=bearer", true, false⟩, by
      unfold signInPlan
      rw [if_neg (by simp [hauth]), if_neg (by simp [hauth]), if_pos (Or.inr hauth)]
      rfl⟩


/-- C1 counterexample to the claim as stated: a sign-in POST answered HTTP
403 whose body is an HTML error page makes `signIn` throw the raw
`HTTPStatusError` instead of resolving with a failure message, because the
HTML body is refused as a hub message and the resulting error is not a
`CSHubRequestError`. -/
theorem signIn_403_htmlBody_throws :
    signIn { auth := some .password, hubuser := some "u", hubpasswd := some "p" }
      false (fun _ => none)
      (.response 403 "Forbidden" "<!DOCTYPE html><p>sign-in rejected</p>") =
    .throws (.statusError "Forbidden" 403) := by
  rfl

/-- Closed instance of `signIn_outcome_classification`, discharging its
hypotheses for a password sign-in rejected with a plaintext 403. -/
theorem signIn_outcome_classification_witness :
    ∃ m, signIn
        { auth := some .password, hubuser := some "u", hubpasswd := some "p" }
        false (fun _ => none) (.response 403 "Forbidden" "bad credentials") =
      .resolves (some m) ∧ ("Forbidden" ≠ "" → m ≠ "") :=
  (signIn_outcome_classification
      { auth := some .password, hubuser := some "u", hubpasswd := some "p" }
      false (fun _ => none)).1
    ⟨signInUrlPath700, encodeURIQuery (legacySignInPasswordForm "u" "p"),
      false, false⟩
    "Forbidden" "bad credentials" rfl rfl
